import Mathlib

/-!
# Verification of the Purple Merit delivery simulation engine

A shallow embedding of `backend/src/services/simulationService.ts` together
with the route/order data model of `backend/src/models/Route.ts` and
`backend/src/models/Order.ts`.  JavaScript numbers are modelled as rationals
(`ℚ`); `Date` values are modelled as rational minutes since an arbitrary
epoch; the current wall-clock date picked up by `new Date()` is made explicit
as a `todayMidnight` parameter (minutes-since-epoch of the midnight that
`new Date()` falls in), since `runSimulation` builds its start time from it.
`Math.round` is `⌊x + 1/2⌋` and the implicit truncation performed by
`Date.prototype.setMinutes` (ECMAScript `MakeTime` applies
`ToIntegerOrInfinity` to its minute argument) is `jsTrunc`.
Fallible code is modelled with `Except String`.
-/

namespace PurpleMerit

/-- JavaScript `Math.round`: rounds to the nearest integer, halves toward +∞. -/
def jsRound (q : ℚ) : ℤ := ⌊q + 1/2⌋

/-- JavaScript `ToIntegerOrInfinity` on a finite number: truncation toward zero. -/
def jsTrunc (q : ℚ) : ℤ := if 0 ≤ q then ⌊q⌋ else -⌊-q⌋

/-- `trafficLevel` enumeration of `Route.ts`. -/
inductive TrafficLevel where
  | Low
  | Medium
  | High
deriving DecidableEq, Repr

/-- The fields of a `Route` document used by the engine. -/
structure Route where
  routeId : String
  distance : ℚ
  trafficLevel : TrafficLevel
  baseTime : ℚ
deriving DecidableEq, Repr

/-- Traffic multipliers of the `adjustedTime` virtual in `Route.ts`. -/
def trafficMultiplier : TrafficLevel → ℚ
  | .Low => 1
  | .Medium => 12/10
  | .High => 15/10

/-- Virtual `fuelCost` of `Route.ts`:
`distance*5` plus a `distance*2` surcharge for `High` traffic. -/
def Route.fuelCost (r : Route) : ℚ :=
  r.distance * 5 + (if r.trafficLevel = TrafficLevel.High then r.distance * 2 else 0)

/-- Virtual `adjustedTime` of `Route.ts`:
`Math.round(baseTime * trafficMultipliers[trafficLevel])`, in minutes. -/
def Route.adjustedTime (r : Route) : ℚ :=
  (jsRound (r.baseTime * trafficMultiplier r.trafficLevel) : ℚ)

/-- The fields of a `Driver` document used by the engine. -/
structure Driver where
  _id : String
  name : String
  currentShiftHours : ℚ
  pastWeekHours : ℚ
deriving DecidableEq, Repr

/-- The fields of an `Order` document used by the engine.
`deliveryTimestamp` is an absolute time in minutes since the epoch. -/
structure Order where
  orderId : String
  value : ℚ
  assignedRoute : String
  deliveryTimestamp : ℚ
deriving DecidableEq, Repr

/-- `SimulationInput` of `simulationService.ts`.  The spec's data model
declares `availableDrivers` and `maxHoursPerDay` to be integers. -/
structure SimulationInput where
  availableDrivers : ℤ
  startTime : String
  maxHoursPerDay : ℤ
deriving DecidableEq, Repr

/-- `DriverAssignment` of `simulationService.ts`. -/
structure DriverAssignment where
  driverId : String
  driverName : String
  assignedOrders : List String
  totalHours : ℚ
  totalDistance : ℚ
  isFatigued : Bool
deriving DecidableEq, Repr

/-- `OrderResult` of `simulationService.ts`; `deliveryStatus` is the literal
string `"On Time"` or `"Late"`. -/
structure OrderResult where
  orderId : String
  assignedDriver : String
  routeId : String
  orderValue : ℚ
  deliveryStatus : String
  fuelCost : ℚ
  penalty : ℚ
  bonus : ℚ
  profit : ℚ
deriving DecidableEq, Repr

/-- `SimulationResult` of `simulationService.ts`. -/
structure SimulationResult where
  totalProfit : ℚ
  efficiencyScore : ℚ
  onTimeDeliveries : ℕ
  lateDeliveries : ℕ
  fuelCost : ℚ
  penalties : ℚ
  bonuses : ℚ
  driverAssignments : List DriverAssignment
  orderResults : List OrderResult
deriving DecidableEq, Repr

/-- The regular expression `/^([01]?[0-9]|2[0-3]):[0-5][0-9]$/` of
`validateSimulationInput`, unfolded over the characters of the string:
the hour is a single digit, or `[01]` followed by a digit, or `2` followed
by `[0-3]`; the minutes are `[0-5][0-9]`. -/
def timeRegexTest (s : String) : Bool :=
  match s.data with
  | [h, c, m1, m0] =>
      h.isDigit && c = ':' && ('0' ≤ m1 && m1 ≤ '5') && m0.isDigit
  | [h1, h0, c, m1, m0] =>
      ((h1 = '0' || h1 = '1') && h0.isDigit || h1 = '2' && ('0' ≤ h0 && h0 ≤ '3'))
        && c = ':' && ('0' ≤ m1 && m1 ≤ '5') && m0.isDigit
  | _ => false

/-- `validateSimulationInput` of `simulationService.ts`: throws on
`availableDrivers <= 0`, `maxHoursPerDay <= 0 || > 24`, or a start time not
matched by the `HH:MM` regular expression. -/
def validateSimulationInput (input : SimulationInput) : Except String Unit :=
  if input.availableDrivers ≤ 0 then
    Except.error "Available drivers must be greater than 0"
  else if input.maxHoursPerDay ≤ 0 ∨ input.maxHoursPerDay > 24 then
    Except.error "Max hours per day must be between 1 and 24"
  else if ¬ timeRegexTest input.startTime then
    Except.error "Start time must be in HH:MM format"
  else
    Except.ok ()

/-- Numeric value of a list of decimal digit characters. -/
def digitsVal (cs : List Char) : ℕ :=
  cs.foldl (fun acc c => acc * 10 + (c.toNat - '0'.toNat)) 0

/-- JavaScript `Number(s)` restricted to the non-empty all-digit strings the
validated start time produces; other strings (which would yield `NaN`) are
collapsed to 0, and are never reached after validation. -/
def jsNumber (s : String) : ℚ :=
  if s.data ≠ [] ∧ s.data.all Char.isDigit then (digitsVal s.data : ℚ) else 0

/-- `s.split(':')` over the character list: the maximal run before each
`':'` becomes one part (structural recursion, so that concrete instances
compute). -/
def splitColonAux : List Char → List Char → List String
  | [], acc => [String.mk acc.reverse]
  | c :: rest, acc =>
      if c = ':' then String.mk acc.reverse :: splitColonAux rest []
      else splitColonAux rest (c :: acc)

/-- JavaScript `"h:m".split(':')`. -/
def splitColon (s : String) : List String :=
  splitColonAux s.data []

/-- `input.startTime.split(':').map(Number)` destructured into hour and
minute, as in `runSimulation`. -/
def parseStartTime (s : String) : ℚ × ℚ :=
  let parts := splitColon s
  (jsNumber (parts.getD 0 ""), jsNumber (parts.getD 1 ""))

/-- The `Map` built from `routes.map(route => [route.routeId, route])`:
a JavaScript `Map` keeps the **last** binding for a duplicated key. -/
def routeLookup (routes : List Route) (rid : String) : Option Route :=
  routes.foldl (fun acc r => if r.routeId = rid then some r else acc) none

/-- Comparator `(a, b) => a.deliveryTimestamp - b.deliveryTimestamp`
as the total preorder it sorts by. -/
def ordLe (a b : Order) : Prop := a.deliveryTimestamp ≤ b.deliveryTimestamp

instance : DecidableRel ordLe := fun a b =>
  inferInstanceAs (Decidable (a.deliveryTimestamp ≤ b.deliveryTimestamp))

instance : IsTotal Order ordLe := ⟨fun a b => le_total a.deliveryTimestamp b.deliveryTimestamp⟩

instance : IsTrans Order ordLe := ⟨fun _ _ _ h h' => le_trans h h'⟩

/-- `[...orders].sort((a, b) => a.deliveryTimestamp - b.deliveryTimestamp)`:
JavaScript `Array.prototype.sort` is a stable sort, modelled by the (stable)
insertion sort on the same total preorder. -/
def sortOrders (orders : List Order) : List Order :=
  List.insertionSort ordLe orders

/-- The initial `DriverAssignment` built for each fetched driver at the top
of `assignOrdersToDrivers`. -/
def initAssignments (drivers : List Driver) : List DriverAssignment :=
  drivers.map fun driver =>
    { driverId := driver._id
      driverName := driver.name
      assignedOrders := []
      totalHours := 0
      totalDistance := 0
      isFatigued := decide (driver.currentShiftHours > (8 : ℚ)) }

/-- `canDriverHandleOrder`: feasible iff adding `adjustedTime/60` hours does
not push `totalHours` past `maxHoursPerDay`.  (`startTime` is accepted and
ignored, as in the source.) -/
def canDriverHandleOrder (assignment : DriverAssignment) (route : Route)
    (maxHoursPerDay : ℚ) (startTime : ℚ) : Bool :=
  if assignment.totalHours + route.adjustedTime / 60 > maxHoursPerDay then
    false
  else
    true

/-- `calculateDriverScore`: `100`, minus `30` if fatigued, minus `5` per
already-assigned order, minus `0.1` per unit of accumulated distance,
floored at `0` by `Math.max`.  (`route` is accepted and ignored.) -/
def calculateDriverScore (assignment : DriverAssignment) (route : Route) : ℚ :=
  max 0 (100 - (if assignment.isFatigued then 30 else 0)
           - (assignment.assignedOrders.length : ℚ) * 5
           - assignment.totalDistance * (1/10))

/-- The driver-selection loop of `assignOrdersToDrivers`: walks the
assignment list carrying `(bestDriver, bestScore)`, starting from
`(null, -1)`; a feasible driver whose score strictly exceeds `bestScore`
becomes the new best.  Drivers are identified by their index. -/
def findBestAux (route : Route) (maxHoursPerDay startTime : ℚ) :
    List DriverAssignment → ℕ → Option ℕ × ℚ → Option ℕ × ℚ
  | [], _, best => best
  | a :: rest, i, best =>
      findBestAux route maxHoursPerDay startTime rest (i + 1)
        (if canDriverHandleOrder a route maxHoursPerDay startTime
            ∧ calculateDriverScore a route > best.2
         then (some i, calculateDriverScore a route)
         else best)

/-- Index of the driver the loop selects for one order, if any. -/
def findBestDriver (assignments : List DriverAssignment) (route : Route)
    (maxHoursPerDay startTime : ℚ) : Option ℕ :=
  (findBestAux route maxHoursPerDay startTime assignments 0 (none, -1)).1

/-- The body of the `for (const order of sortedOrders)` loop: resolve the
route (an unknown route id leaves the state untouched), select the best
feasible driver, and on success push the order id and accumulate
`adjustedTime/60` hours and `distance` kilometres on that driver. -/
def assignOrder (routes : List Route) (maxHoursPerDay startTime : ℚ)
    (assignments : List DriverAssignment) (order : Order) : List DriverAssignment :=
  match routeLookup routes order.assignedRoute with
  | none => assignments
  | some route =>
    match findBestDriver assignments route maxHoursPerDay startTime with
    | none => assignments
    | some i =>
      match assignments[i]? with
      | none => assignments
      | some a =>
          assignments.set i
            { a with
              assignedOrders := a.assignedOrders ++ [order.orderId]
              totalHours := a.totalHours + route.adjustedTime / 60
              totalDistance := a.totalDistance + route.distance }

/-- The updated assignment record pushed by an acceptance. -/
def acceptOrder (a : DriverAssignment) (o : Order) (route : Route) : DriverAssignment :=
  { a with
    assignedOrders := a.assignedOrders ++ [o.orderId]
    totalHours := a.totalHours + route.adjustedTime / 60
    totalDistance := a.totalDistance + route.distance }

/-- `assignOrdersToDrivers` of `simulationService.ts`. -/
def assignOrdersToDrivers (drivers : List Driver) (orders : List Order)
    (routes : List Route) (startTime : ℚ) (maxHoursPerDay : ℚ) :
    List DriverAssignment :=
  (sortOrders orders).foldl (assignOrder routes maxHoursPerDay startTime)
    (initAssignments drivers)

/-- `calculateDeliveryTime`: the adjusted minutes (scaled by `1.3` for a
fatigued driver) are added to the start time through
`setMinutes(getMinutes() + adjustedTime)`, whose `MakeTime` truncates the
minute argument toward zero; the start time produced by `runSimulation`
lies on a whole minute, so the result is `startTime + jsTrunc adjusted`. -/
def calculateDeliveryTime (startTime : ℚ) (route : Route) (isFatigued : Bool) : ℚ :=
  let adjustedTime := if isFatigued then route.adjustedTime * (13/10) else route.adjustedTime
  startTime + (jsTrunc adjustedTime : ℚ)

/-- The per-order body of `calculateOrderResults`. -/
def mkOrderResult (driverAssignments : List DriverAssignment) (startTime : ℚ)
    (order : Order) (route : Route) : OrderResult :=
  let assignedDriver := driverAssignments.find? fun d => d.assignedOrders.contains order.orderId
  let deliveryTime := calculateDeliveryTime startTime route
    ((assignedDriver.map (fun d => d.isFatigued)).getD false)
  let isOnTime := decide (deliveryTime ≤ order.deliveryTimestamp)
  let fuelCost := route.fuelCost
  let penalty : ℚ := if isOnTime then 0 else 50
  let bonus : ℚ := if order.value > 1000 ∧ isOnTime then order.value * (1/10) else 0
  { orderId := order.orderId
    assignedDriver :=
      match assignedDriver with
      | some d => if d.driverName = "" then "Unassigned" else d.driverName
      | none => "Unassigned"
    routeId := order.assignedRoute
    orderValue := order.value
    deliveryStatus := if isOnTime then "On Time" else "Late"
    fuelCost := fuelCost
    penalty := penalty
    bonus := bonus
    profit := order.value + bonus - penalty - fuelCost }

/-- `calculateOrderResults`: maps over the (unsorted) order list; an order
whose route id is unknown throws, aborting the whole run. -/
def calculateOrderResults (orders : List Order) (routes : List Route)
    (driverAssignments : List DriverAssignment) (startTime : ℚ) :
    Except String (List OrderResult) :=
  match orders with
  | [] => Except.ok []
  | order :: rest =>
    match routeLookup routes order.assignedRoute with
    | none => Except.error ("Route " ++ order.assignedRoute ++ " not found")
    | some route =>
      match calculateOrderResults rest routes driverAssignments startTime with
      | Except.error e => Except.error e
      | Except.ok results =>
          Except.ok (mkOrderResult driverAssignments startTime order route :: results)

/-- `Math.round(x * 100) / 100`. -/
def round2 (q : ℚ) : ℚ := (jsRound (q * 100) : ℚ) / 100

/-- `calculateKPIs` of `simulationService.ts`, packaged into a
`SimulationResult` with empty assignment/result lists to be filled by the
caller. -/
def calculateKPIs (orderResults : List OrderResult) : SimulationResult :=
  let totalProfit := (orderResults.map (fun o => o.profit)).sum
  let onTimeDeliveries := (orderResults.filter (fun o => o.deliveryStatus = "On Time")).length
  let lateDeliveries := (orderResults.filter (fun o => o.deliveryStatus = "Late")).length
  let totalDeliveries := orderResults.length
  let efficiencyScore : ℚ :=
    if totalDeliveries > 0 then ((onTimeDeliveries : ℚ) / (totalDeliveries : ℚ)) * 100 else 0
  let fuelCost := (orderResults.map (fun o => o.fuelCost)).sum
  let penalties := (orderResults.map (fun o => o.penalty)).sum
  let bonuses := (orderResults.map (fun o => o.bonus)).sum
  { totalProfit := round2 totalProfit
    efficiencyScore := round2 efficiencyScore
    onTimeDeliveries := onTimeDeliveries
    lateDeliveries := lateDeliveries
    fuelCost := round2 fuelCost
    penalties := penalties
    bonuses := round2 bonuses
    driverAssignments := []
    orderResults := [] }

/-- The body of `runSimulation` inside its `try`: validation, the
empty-snapshot checks, start-time construction from the current date's
midnight, assignment, per-order results and KPIs.  `drivers`, `routes` and
`orders` are the fetched snapshot (drivers already limited to
`availableDrivers`, orders already filtered to undelivered). -/
def runSimulationCore (todayMidnight : ℚ) (drivers : List Driver)
    (routes : List Route) (orders : List Order) (input : SimulationInput) :
    Except String SimulationResult :=
  match validateSimulationInput input with
  | Except.error e => Except.error e
  | Except.ok _ =>
    if drivers.length = 0 then
      Except.error "No drivers available for simulation"
    else if orders.length = 0 then
      Except.error "No pending orders for simulation"
    else
      let hm := parseStartTime input.startTime
      let startTime := todayMidnight + hm.1 * 60 + hm.2
      let driverAssignments :=
        assignOrdersToDrivers drivers orders routes startTime (input.maxHoursPerDay : ℚ)
      match calculateOrderResults orders routes driverAssignments startTime with
      | Except.error e => Except.error e
      | Except.ok orderResults =>
          Except.ok
            { calculateKPIs orderResults with
              driverAssignments := driverAssignments
              orderResults := orderResults }

/-- `runSimulation`: the surrounding `catch` re-throws every failure wrapped
as `Simulation failed: <message>`. -/
def runSimulation (todayMidnight : ℚ) (drivers : List Driver)
    (routes : List Route) (orders : List Order) (input : SimulationInput) :
    Except String SimulationResult :=
  match runSimulationCore todayMidnight drivers routes orders input with
  | Except.error e => Except.error ("Simulation failed: " ++ e)
  | Except.ok r => Except.ok r

/-! ## Derived definitions used to state the claims -/

/-- The hours `adjustedTime(route)/60` that the engine charges for an
assigned order id: the order is resolved by `orderId` in the order snapshot
and its route through the route map; ids that resolve to no order or no
route contribute 0 (they are never produced by the engine). -/
def orderHoursOf (orders : List Order) (routes : List Route) (oid : String) : ℚ :=
  match orders.find? (fun o => o.orderId = oid) with
  | some o =>
    match routeLookup routes o.assignedRoute with
    | some r => r.adjustedTime / 60
    | none => 0
  | none => 0

/-- Total number of occurrences of an order id across all assignment lists. -/
def totalAssignedCount (assignments : List DriverAssignment) (oid : String) : ℕ :=
  (assignments.map (fun a => a.assignedOrders.count oid)).sum

/-! ## Concrete snapshots used by witnesses and counterexamples -/

/-- Scenario A driver: 6h shift, not fatigued. -/
def driverA : Driver :=
  { _id := "driver1", name := "Alice", currentShiftHours := 6, pastWeekHours := 35 }

/-- A fatigued driver (9h shift). -/
def driverB : Driver :=
  { _id := "driver2", name := "Bob", currentShiftHours := 9, pastWeekHours := 40 }

/-- Scenario A route: 25 km, Medium traffic, 45 min base time
(`fuelCost = 125`, `adjustedTime = 54`). -/
def routeA : Route :=
  { routeId := "R001", distance := 25, trafficLevel := TrafficLevel.Medium, baseTime := 45 }

/-- Scenario A order: value 1500, deadline at minute 720 (noon of day 0). -/
def orderA : Order :=
  { orderId := "O001", value := 1500, assignedRoute := "R001", deliveryTimestamp := 720 }

/-- Scenario A simulation input. -/
def inputA : SimulationInput :=
  { availableDrivers := 1, startTime := "08:00", maxHoursPerDay := 10 }

/-- The assignment state after Scenario A's single order is accepted. -/
def assignmentA : DriverAssignment :=
  { driverId := "driver1", driverName := "Alice", assignedOrders := ["O001"],
    totalHours := 9/10, totalDistance := 25, isFatigued := false }

/-- The order result Scenario A produces. -/
def orderResultA : OrderResult :=
  { orderId := "O001", assignedDriver := "Alice", routeId := "R001", orderValue := 1500,
    deliveryStatus := "On Time", fuelCost := 125, penalty := 0, bonus := 150,
    profit := 1525 }

/-- An input with zero available drivers. -/
def inputZero : SimulationInput :=
  { availableDrivers := 0, startTime := "08:00", maxHoursPerDay := 10 }

/-- An input whose start-time hour has a single digit. -/
def input830 : SimulationInput :=
  { availableDrivers := 5, startTime := "8:30", maxHoursPerDay := 8 }

/-- An input whose start time fails the regular expression. -/
def input2500 : SimulationInput :=
  { availableDrivers := 5, startTime := "25:00", maxHoursPerDay := 8 }

/-- A route whose `adjustedTime` (54) is not a multiple of 10, so that
`54 * 1.3 = 70.2` has a fractional minute. -/
def route54 : Route :=
  { routeId := "R054", distance := 10, trafficLevel := TrafficLevel.Low, baseTime := 54 }

/-- A route whose `adjustedTime` (30) makes `30 * 1.3 = 39` exact. -/
def route30 : Route :=
  { routeId := "R030", distance := 20, trafficLevel := TrafficLevel.Low, baseTime := 30 }

/-! ## Helper lemmas -/

lemma parseStartTime_0800 : parseStartTime "08:00" = (8, 0) := by
  rw [parseStartTime, show splitColon "08:00" = ["08", "00"] from by decide]
  rw [show (["08", "00"].getD 0 "") = "08" from rfl,
    show (["08", "00"].getD 1 "") = "00" from rfl]
  rw [jsNumber, if_pos (by decide), show digitsVal "08".data = 8 from rfl]
  rw [jsNumber, if_pos (by decide), show digitsVal "00".data = 0 from rfl]
  norm_num

lemma calculateOrderResults_scenarioA :
    calculateOrderResults [orderA] [routeA] [assignmentA] 480 =
      Except.ok [orderResultA] := by
  norm_num [calculateOrderResults, mkOrderResult, routeLookup, List.find?,
    calculateDeliveryTime, jsTrunc, Route.adjustedTime, Route.fuelCost, jsRound,
    trafficMultiplier, orderA, routeA, assignmentA, orderResultA]
  refine ⟨by simp, by decide, ?_⟩
  rw [if_neg (by decide : ¬ TrafficLevel.Medium = TrafficLevel.High)]
  norm_num


lemma jsTrunc_intCast (n : ℤ) : jsTrunc (n : ℚ) = n := by
  unfold jsTrunc
  split_ifs with h
  · exact Int.floor_intCast n
  · rw [show -(n : ℚ) = ((-n : ℤ) : ℚ) by push_cast; ring, Int.floor_intCast]
    ring

lemma calculateDriverScore_nonneg (a : DriverAssignment) (route : Route) :
    0 ≤ calculateDriverScore a route :=
  le_max_left 0 _

lemma canDriverHandleOrder_eq_true_iff (a : DriverAssignment) (route : Route)
    (maxHoursPerDay startTime : ℚ) :
    canDriverHandleOrder a route maxHoursPerDay startTime = true ↔
      a.totalHours + route.adjustedTime / 60 ≤ maxHoursPerDay := by
  unfold canDriverHandleOrder
  split_ifs with h
  · simp only [Bool.false_eq_true, false_iff, not_le]
    exact h
  · simp only [true_iff]
    exact le_of_not_lt h

lemma foldl_preserve {α σ : Type} {g : σ → α → σ} {P : σ → Prop} :
    ∀ (l : List α) (st : σ), P st → (∀ s a, a ∈ l → P s → P (g s a)) →
      P (l.foldl g st)
  | [], _, h, _ => h
  | a :: l, st, h, hstep =>
      foldl_preserve l (g st a) (hstep st a (List.mem_cons_self a l) h)
        (fun s b hb hs => hstep s b (List.mem_cons_of_mem a hb) hs)

lemma sum_map_set {α β : Type} [AddCommMonoid β] (f : α → β) :
    ∀ (l : List α) (i : ℕ) (a a' : α), l[i]? = some a →
      ((l.set i a').map f).sum + f a = (l.map f).sum + f a'
  | [], i, a, a', h => by simp at h
  | x :: l, 0, a, a', h => by
      simp only [List.getElem?_cons_zero, Option.some_inj] at h
      subst h
      simp only [List.set_cons_zero, List.map_cons, List.sum_cons]
      abel
  | x :: l, i + 1, a, a', h => by
      simp only [List.getElem?_cons_succ] at h
      have ih := sum_map_set f l i a a' h
      simp only [List.set_cons_succ, List.map_cons, List.sum_cons]
      rw [add_assoc, ih, ← add_assoc]

lemma getElem?_concat_cases {α : Type} {l : List α} {a x : α} {j : ℕ}
    (h : (l ++ [a])[j]? = some x) :
    (j < l.length ∧ l[j]? = some x) ∨ (j = l.length ∧ x = a) := by
  by_cases hj : j < l.length
  · exact Or.inl ⟨hj, by rwa [List.getElem?_append_left hj] at h⟩
  · right
    rw [List.getElem?_append_right (le_of_not_lt hj)] at h
    rcases hd : j - l.length with _ | d
    · rw [hd] at h
      simp only [List.getElem?_cons_zero, Option.some_inj] at h
      exact ⟨by omega, h.symm⟩
    · rw [hd] at h
      simp at h

lemma find?_eq_self_of_nodup (orders : List Order) (o : Order)
    (ho : o ∈ orders) (hnodup : (orders.map Order.orderId).Nodup) :
    orders.find? (fun x => x.orderId = o.orderId) = some o := by
  have hsome : (orders.find? (fun x => x.orderId = o.orderId)).isSome := by
    rw [List.find?_isSome]
    exact ⟨o, ho, by simp⟩
  rcases Option.isSome_iff_exists.1 hsome with ⟨x, hx⟩
  have hxmem : x ∈ orders := List.mem_of_find?_eq_some hx
  have hxid : x.orderId = o.orderId := by
    have := List.find?_some hx
    simpa using this
  have := List.inj_on_of_nodup_map hnodup hxmem ho hxid
  rw [hx, this]

lemma filter_sortOrders (orders : List Order) (p : Order → Bool)
    (hp : ∀ a b, p a = true → p b = true → ordLe a b) :
    (sortOrders orders).filter p = orders.filter p := by
  have h1 : (orders.filter p).Pairwise ordLe :=
    List.pairwise_of_forall_mem_list
      (fun a ha b hb => hp a b (List.of_mem_filter ha) (List.of_mem_filter hb))
  have h2 : List.Sublist (orders.filter p) (sortOrders orders) :=
    List.sublist_insertionSort h1 (List.filter_sublist orders)
  have h3 : List.Sublist ((orders.filter p).filter p) ((sortOrders orders).filter p) :=
    h2.filter p
  rw [List.filter_eq_self.mpr (fun a ha => List.of_mem_filter ha)] at h3
  have hlen : ((sortOrders orders).filter p).length = (orders.filter p).length :=
    ((List.perm_insertionSort ordLe orders).filter p).length_eq
  exact (h3.eq_of_length hlen.symm).symm

lemma findBestAux_append (route : Route) (maxH st : ℚ) :
    ∀ (l : List DriverAssignment) (a : DriverAssignment) (i : ℕ) (b : Option ℕ × ℚ),
      findBestAux route maxH st (l ++ [a]) i b =
        (if canDriverHandleOrder a route maxH st
              ∧ calculateDriverScore a route > (findBestAux route maxH st l i b).2
         then (some (i + l.length), calculateDriverScore a route)
         else findBestAux route maxH st l i b)
  | [], a, i, b => by simp [findBestAux]
  | x :: l, a, i, b => by
      simp only [List.cons_append, findBestAux, List.append_eq]
      rw [findBestAux_append route maxH st l a (i + 1) _]
      have : i + 1 + l.length = i + (x :: l).length := by
        simp only [List.length_cons]
        omega
      rw [this]

/-- Full characterization of the driver-selection loop on `l` started from
`(null, -1)`: when it returns no index there is no feasible driver; when it
returns index `k` carrying score `s`, the driver at `k` is feasible with
score `s`, every feasible driver scores at most `s`, and every feasible
driver strictly before `k` scores strictly below `s`. -/
lemma findBestAux_char (route : Route) (maxH st : ℚ) (l : List DriverAssignment) :
    (∀ s, findBestAux route maxH st l 0 (none, -1) = (none, s) →
       s = -1 ∧ ∀ a ∈ l, canDriverHandleOrder a route maxH st = false) ∧
    (∀ k s, findBestAux route maxH st l 0 (none, -1) = (some k, s) →
       ∃ a, l[k]? = some a ∧ canDriverHandleOrder a route maxH st = true ∧
         s = calculateDriverScore a route ∧
         (∀ (j : ℕ) (b : DriverAssignment), l[j]? = some b →
            canDriverHandleOrder b route maxH st = true →
            calculateDriverScore b route ≤ calculateDriverScore a route) ∧
         (∀ (j : ℕ) (b : DriverAssignment), j < k → l[j]? = some b →
            canDriverHandleOrder b route maxH st = true →
            calculateDriverScore b route < calculateDriverScore a route)) := by
  induction l using List.reverseRecOn with
  | nil =>
      constructor
      · intro s h
        simp only [findBestAux, Prod.mk.injEq] at h
        exact ⟨h.2.symm, by simp⟩
      · intro k s h
        simp [findBestAux] at h
  | append_singleton l a ih =>
      rw [findBestAux_append]
      rcases hr : findBestAux route maxH st l 0 (none, -1) with ⟨ko, s0⟩
      by_cases hcond : canDriverHandleOrder a route maxH st = true
          ∧ calculateDriverScore a route > s0
      · rw [if_pos hcond]
        constructor
        · intro s h
          simp at h
        · intro k s h
          simp only [Prod.mk.injEq, Option.some_inj, Nat.zero_add] at h
          obtain ⟨hk, hs⟩ := h
          subst hk
          subst hs
          refine ⟨a, List.getElem?_concat_length l a, hcond.1, rfl, ?_, ?_⟩
          · intro j b hjb hok
            rcases getElem?_concat_cases hjb with ⟨hj, hjl⟩ | ⟨_, rfl⟩
            · rcases ko with _ | k0
              · have := (ih.1 s0 hr).2 b (by
                  rcases List.getElem?_eq_some.1 hjl with ⟨h', rfl⟩
                  exact List.getElem_mem h')
                rw [this] at hok
                cases hok
              · rcases ih.2 k0 s0 hr with ⟨a0, _, _, hs0, hmax, _⟩
                have h1 := hmax j b hjl hok
                have h2 : calculateDriverScore a0 route < calculateDriverScore a route := by
                  rw [← hs0]
                  exact hcond.2
                exact le_of_lt (lt_of_le_of_lt h1 h2)
            · exact le_refl _
          · intro j b hj hjb hok
            have hjl : l[j]? = some b := by
              rcases getElem?_concat_cases hjb with ⟨_, hjl⟩ | ⟨hj', _⟩
              · exact hjl
              · omega
            rcases ko with _ | k0
            · have := (ih.1 s0 hr).2 b (by
                rcases List.getElem?_eq_some.1 hjl with ⟨h', rfl⟩
                exact List.getElem_mem h')
              rw [this] at hok
              cases hok
            · rcases ih.2 k0 s0 hr with ⟨a0, _, _, hs0, hmax, _⟩
              have h1 := hmax j b hjl hok
              have h2 : calculateDriverScore a0 route < calculateDriverScore a route := by
                rw [← hs0]
                exact hcond.2
              exact lt_of_le_of_lt h1 h2
      · rw [if_neg hcond]
        constructor
        · intro s h
          simp only [Prod.mk.injEq] at h
          obtain ⟨hko, hs⟩ := h
          rcases ko with _ | k0
          · rcases ih.1 s0 hr with ⟨hs1, hnone⟩
            refine ⟨by rw [← hs, hs1], ?_⟩
            intro b hb
            rcases List.mem_append.1 hb with hb | hb
            · exact hnone b hb
            · rcases List.mem_singleton.1 hb with rfl
              by_contra hok
              apply hcond
              refine ⟨by simpa using hok, ?_⟩
              rw [hs1]
              have := calculateDriverScore_nonneg b route
              linarith
          · cases hko
        · intro k s h
          simp only [Prod.mk.injEq] at h
          obtain ⟨hko, hs⟩ := h
          rcases ko with _ | k0
          · cases hko
          · have hk : k0 = k := Option.some_inj.1 hko
            subst hk
            rcases ih.2 k0 s0 hr with ⟨a0, hk0, hok0, hs0, hmax, hfirst⟩
            have hk0len : k0 < l.length := by
              rcases List.getElem?_eq_some.1 hk0 with ⟨h', _⟩
              exact h'
            refine ⟨a0, by rwa [List.getElem?_append_left hk0len], hok0, by rw [← hs, hs0], ?_, ?_⟩
            · intro j b hjb hok
              rcases getElem?_concat_cases hjb with ⟨_, hjl⟩ | ⟨_, rfl⟩
              · exact hmax j b hjl hok
              · have hnb : ¬ calculateDriverScore b route > s0 := fun hgt => hcond ⟨hok, hgt⟩
                rw [hs0] at hnb
                exact le_of_not_lt hnb
            · intro j b hj hjb hok
              have hjl : l[j]? = some b := by
                rcases getElem?_concat_cases hjb with ⟨_, hjl⟩ | ⟨hj', _⟩
                · exact hjl
                · omega
              exact hfirst j b hj hjl hok

lemma findBestDriver_some_spec (as : List DriverAssignment) (route : Route)
    (maxH st : ℚ) (i : ℕ) (h : findBestDriver as route maxH st = some i) :
    ∃ a, as[i]? = some a ∧ canDriverHandleOrder a route maxH st = true ∧
      (∀ (j : ℕ) (b : DriverAssignment), as[j]? = some b →
         canDriverHandleOrder b route maxH st = true →
         calculateDriverScore b route ≤ calculateDriverScore a route) ∧
      (∀ (j : ℕ) (b : DriverAssignment), j < i → as[j]? = some b →
         canDriverHandleOrder b route maxH st = true →
         calculateDriverScore b route < calculateDriverScore a route) := by
  unfold findBestDriver at h
  rcases haux : findBestAux route maxH st as 0 (none, -1) with ⟨ko, s0⟩
  rw [haux] at h
  rcases ko with _ | k0
  · cases h
  · rcases Option.some_inj.1 h with rfl
    rcases (findBestAux_char route maxH st as).2 k0 s0 haux with
      ⟨a, hga, hok, _, hmax, hfirst⟩
    exact ⟨a, hga, hok, hmax, hfirst⟩

lemma findBestDriver_none_spec (as : List DriverAssignment) (route : Route)
    (maxH st : ℚ) (h : findBestDriver as route maxH st = none) :
    ∀ a ∈ as, canDriverHandleOrder a route maxH st = false := by
  unfold findBestDriver at h
  rcases haux : findBestAux route maxH st as 0 (none, -1) with ⟨ko, s0⟩
  rw [haux] at h
  rcases ko with _ | k0
  · exact ((findBestAux_char route maxH st as).1 s0 haux).2
  · cases h

lemma assignOrder_of_route_none (routes : List Route) (maxH st : ℚ)
    (as : List DriverAssignment) (o : Order)
    (h : routeLookup routes o.assignedRoute = none) :
    assignOrder routes maxH st as o = as := by
  unfold assignOrder
  rw [h]

lemma assignOrder_of_best_none (routes : List Route) (maxH st : ℚ)
    (as : List DriverAssignment) (o : Order) (route : Route)
    (hr : routeLookup routes o.assignedRoute = some route)
    (hb : findBestDriver as route maxH st = none) :
    assignOrder routes maxH st as o = as := by
  unfold assignOrder
  rw [hr]
  show (match findBestDriver as route maxH st with
    | none => as
    | some i =>
      match as[i]? with
      | none => as
      | some a => as.set i (acceptOrder a o route)) = as
  rw [hb]

lemma assignOrder_of_best_some (routes : List Route) (maxH st : ℚ)
    (as : List DriverAssignment) (o : Order) (route : Route) (i : ℕ)
    (a : DriverAssignment)
    (hr : routeLookup routes o.assignedRoute = some route)
    (hb : findBestDriver as route maxH st = some i)
    (hg : as[i]? = some a) :
    assignOrder routes maxH st as o = as.set i (acceptOrder a o route) := by
  unfold assignOrder
  rw [hr]
  show (match findBestDriver as route maxH st with
    | none => as
    | some i =>
      match as[i]? with
      | none => as
      | some a => as.set i (acceptOrder a o route)) = _
  rw [hb]
  show (match as[i]? with
    | none => as
    | some a => as.set i (acceptOrder a o route)) = _
  rw [hg]

lemma assignOrder_preserves_hours (routes : List Route) (maxH st : ℚ)
    (orders : List Order) (o : Order)
    (hfind : orders.find? (fun x => x.orderId = o.orderId) = some o)
    (as : List DriverAssignment)
    (hP : ∀ a ∈ as,
      a.totalHours = ((a.assignedOrders.map (orderHoursOf orders routes)).sum) ∧
      a.totalHours ≤ maxH) :
    ∀ a ∈ assignOrder routes maxH st as o,
      a.totalHours = ((a.assignedOrders.map (orderHoursOf orders routes)).sum) ∧
      a.totalHours ≤ maxH := by
  cases hroute : routeLookup routes o.assignedRoute with
  | none => rw [assignOrder_of_route_none routes maxH st as o hroute]; exact hP
  | some route =>
    cases hbest : findBestDriver as route maxH st with
    | none => rw [assignOrder_of_best_none routes maxH st as o route hroute hbest]; exact hP
    | some i =>
      rcases findBestDriver_some_spec as route maxH st i hbest with ⟨a0, hgi, hok, _, _⟩
      rw [assignOrder_of_best_some routes maxH st as o route i a0 hroute hbest hgi]
      intro x hx
      rcases List.mem_or_eq_of_mem_set hx with hx | rfl
      · exact hP x hx
      · have ha0 := hP a0 (by
          rcases List.getElem?_eq_some.1 hgi with ⟨h', rfl⟩
          exact List.getElem_mem h')
        have hoh : orderHoursOf orders routes o.orderId = route.adjustedTime / 60 := by
          simp only [orderHoursOf, hfind, hroute]
        constructor
        · show a0.totalHours + route.adjustedTime / 60 =
            ((a0.assignedOrders ++ [o.orderId]).map (orderHoursOf orders routes)).sum
          rw [List.map_append, List.sum_append]
          simp only [List.map_cons, List.map_nil, List.sum_cons, List.sum_nil]
          rw [hoh, ← ha0.1]
          ring
        · show a0.totalHours + route.adjustedTime / 60 ≤ maxH
          exact (canDriverHandleOrder_eq_true_iff a0 route maxH st).1 hok

/-- C1: with distinct order ids and a nonnegative hour cap, every returned
`DriverAssignment` keeps the sum of `adjustedTime(route)/60` over its
assigned orders within `maxHoursPerDay`, and `totalHours` equals exactly
that sum. -/
theorem C1_capacity_invariant (drivers : List Driver) (orders : List Order)
    (routes : List Route) (startTime maxHoursPerDay : ℚ)
    (hmax : 0 ≤ maxHoursPerDay)
    (hnodup : (orders.map Order.orderId).Nodup) :
    ∀ a ∈ assignOrdersToDrivers drivers orders routes startTime maxHoursPerDay,
      ((a.assignedOrders.map (orderHoursOf orders routes)).sum ≤ maxHoursPerDay) ∧
      a.totalHours = (a.assignedOrders.map (orderHoursOf orders routes)).sum := by
  have main : ∀ a ∈ assignOrdersToDrivers drivers orders routes startTime maxHoursPerDay,
      a.totalHours = ((a.assignedOrders.map (orderHoursOf orders routes)).sum) ∧
      a.totalHours ≤ maxHoursPerDay := by
    unfold assignOrdersToDrivers
    refine foldl_preserve (P := fun as => ∀ a ∈ as,
        a.totalHours = ((a.assignedOrders.map (orderHoursOf orders routes)).sum) ∧
        a.totalHours ≤ maxHoursPerDay) (sortOrders orders) (initAssignments drivers) ?_ ?_
    · intro a ha
      rcases List.mem_map.1 ha with ⟨d, _, rfl⟩
      exact ⟨by simp, hmax⟩
    · intro s o ho hP
      have ho' : o ∈ orders := by
        unfold sortOrders at ho
        exact (List.mem_insertionSort ordLe).1 ho
      exact assignOrder_preserves_hours routes maxHoursPerDay startTime orders o
        (find?_eq_self_of_nodup orders o ho' hnodup) s hP
  intro a ha
  rcases main a ha with ⟨heq, hle⟩
  exact ⟨heq ▸ hle, heq⟩

/-- Witness for C1 at the spec's Scenario A snapshot. -/
theorem C1_capacity_invariant_witness :
    (0 : ℚ) ≤ 10 ∧
    (([({ orderId := "O001", value := 1500, assignedRoute := "R001",
          deliveryTimestamp := 720 } : Order)].map Order.orderId).Nodup) ∧
    (∀ a ∈ assignOrdersToDrivers
        [{ _id := "driver1", name := "Alice", currentShiftHours := 6, pastWeekHours := 35 }]
        [{ orderId := "O001", value := 1500, assignedRoute := "R001",
           deliveryTimestamp := 720 }]
        [{ routeId := "R001", distance := 25, trafficLevel := TrafficLevel.Medium,
           baseTime := 45 }] 480 10,
      ((a.assignedOrders.map (orderHoursOf
          [{ orderId := "O001", value := 1500, assignedRoute := "R001",
             deliveryTimestamp := 720 }]
          [{ routeId := "R001", distance := 25, trafficLevel := TrafficLevel.Medium,
             baseTime := 45 }])).sum ≤ 10) ∧
      a.totalHours = (a.assignedOrders.map (orderHoursOf
          [{ orderId := "O001", value := 1500, assignedRoute := "R001",
             deliveryTimestamp := 720 }]
          [{ routeId := "R001", distance := 25, trafficLevel := TrafficLevel.Medium,
             baseTime := 45 }])).sum) :=
  ⟨by norm_num, by decide,
    C1_capacity_invariant _ _ _ 480 10 (by norm_num) (by decide)⟩

lemma totalAssignedCount_assignOrder_le (routes : List Route) (maxH st : ℚ)
    (as : List DriverAssignment) (o : Order) (oid : String) :
    totalAssignedCount (assignOrder routes maxH st as o) oid ≤
      totalAssignedCount as oid + (if o.orderId = oid then 1 else 0) := by
  cases hroute : routeLookup routes o.assignedRoute with
  | none =>
      rw [assignOrder_of_route_none routes maxH st as o hroute]
      exact Nat.le_add_right _ _
  | some route =>
    cases hbest : findBestDriver as route maxH st with
    | none =>
        rw [assignOrder_of_best_none routes maxH st as o route hroute hbest]
        exact Nat.le_add_right _ _
    | some i =>
      cases hgi : as[i]? with
      | none =>
          rcases findBestDriver_some_spec as route maxH st i hbest with ⟨a0, hgi', _⟩
          rw [hgi] at hgi'
          cases hgi'
      | some a0 =>
          rw [assignOrder_of_best_some routes maxH st as o route i a0 hroute hbest hgi]
          have hsum := sum_map_set (fun a : DriverAssignment => a.assignedOrders.count oid)
            as i a0 (acceptOrder a0 o route) hgi
          have hcount : (acceptOrder a0 o route).assignedOrders.count oid =
              a0.assignedOrders.count oid + (if o.orderId = oid then 1 else 0) := by
            show (a0.assignedOrders ++ [o.orderId]).count oid = _
            rw [List.count_append, List.count_singleton']
          unfold totalAssignedCount at *
          simp only [] at hsum
          omega

lemma totalAssignedCount_fold_le (routes : List Route) (maxH st : ℚ) :
    ∀ (os : List Order) (as : List DriverAssignment),
      (os.map Order.orderId).Nodup →
      (∀ oid ∈ os.map Order.orderId, totalAssignedCount as oid = 0) →
      (∀ oid, totalAssignedCount as oid ≤ 1) →
      ∀ oid, totalAssignedCount (os.foldl (assignOrder routes maxH st) as) oid ≤ 1
  | [], as, _, _, h1, oid => h1 oid
  | o :: os, as, hnodup, h0, h1, oid => by
      simp only [List.map_cons, List.nodup_cons] at hnodup
      apply totalAssignedCount_fold_le routes maxH st os (assignOrder routes maxH st as o)
        hnodup.2
      · intro oid' hmem
        have hne : o.orderId ≠ oid' := fun h => hnodup.1 (h ▸ hmem)
        have := totalAssignedCount_assignOrder_le routes maxH st as o oid'
        rw [if_neg hne] at this
        have h00 : totalAssignedCount as oid' = 0 :=
          h0 oid' (by simp only [List.map_cons]; exact List.mem_cons_of_mem _ hmem)
        omega
      · intro oid'
        have := totalAssignedCount_assignOrder_le routes maxH st as o oid'
        by_cases heq : o.orderId = oid'
        · have h00 : totalAssignedCount as oid' = 0 :=
            h0 oid' (by simp only [List.map_cons]; exact heq ▸ List.mem_cons_self _ _)
          rw [if_pos heq] at this
          omega
        · rw [if_neg heq] at this
          have := h1 oid'
          omega

/-- C5: with distinct order ids in the snapshot, an order id ends up in at
most one `DriverAssignment`'s `assignedOrders` list, and at most once in
that list: its total number of occurrences across all lists is at most 1. -/
theorem C5_no_double_assignment (drivers : List Driver) (orders : List Order)
    (routes : List Route) (startTime maxHoursPerDay : ℚ)
    (hnodup : (orders.map Order.orderId).Nodup) :
    ∀ oid, totalAssignedCount
        (assignOrdersToDrivers drivers orders routes startTime maxHoursPerDay) oid ≤ 1 := by
  unfold assignOrdersToDrivers
  apply totalAssignedCount_fold_le
  · exact ((List.perm_insertionSort ordLe orders).map Order.orderId).nodup_iff.2 hnodup
  · intro oid _
    unfold totalAssignedCount initAssignments
    rw [List.map_map]
    apply List.sum_eq_zero
    intro x hx
    rcases List.mem_map.1 hx with ⟨d, _, rfl⟩
    rfl
  · intro oid
    unfold totalAssignedCount initAssignments
    rw [List.map_map]
    refine le_trans (le_of_eq (List.sum_eq_zero ?_)) (Nat.zero_le 1)
    intro x hx
    rcases List.mem_map.1 hx with ⟨d, _, rfl⟩
    rfl

/-- Witness for C5 at a two-driver, one-order snapshot. -/
theorem C5_no_double_assignment_witness :
    (([({ orderId := "O001", value := 1500, assignedRoute := "R001",
          deliveryTimestamp := 720 } : Order)].map Order.orderId).Nodup) ∧
    totalAssignedCount
      (assignOrdersToDrivers
        [{ _id := "driver1", name := "Alice", currentShiftHours := 6, pastWeekHours := 35 },
         { _id := "driver2", name := "Bob", currentShiftHours := 9, pastWeekHours := 40 }]
        [{ orderId := "O001", value := 1500, assignedRoute := "R001",
           deliveryTimestamp := 720 }]
        [{ routeId := "R001", distance := 25, trafficLevel := TrafficLevel.Medium,
           baseTime := 45 }] 480 10) "O001" ≤ 1 :=
  ⟨by decide,
    C5_no_double_assignment
      [{ _id := "driver1", name := "Alice", currentShiftHours := 6, pastWeekHours := 35 },
       { _id := "driver2", name := "Bob", currentShiftHours := 9, pastWeekHours := 40 }]
      [{ orderId := "O001", value := 1500, assignedRoute := "R001",
         deliveryTimestamp := 720 }]
      [{ routeId := "R001", distance := 25, trafficLevel := TrafficLevel.Medium,
         baseTime := 45 }] 480 10 (by decide) "O001"⟩

/-- C3: the assignment loop walks the orders in a stable ascending sort by
delivery deadline (sorted, and ties keep the snapshot's relative order), and
for each order the selection loop returns a feasible driver of maximal
score such that every feasible driver seen earlier scores strictly less
(first-seen wins ties). -/
theorem C3_greedy_assignment :
    (∀ orders : List Order,
       List.Sorted ordLe (sortOrders orders) ∧
       ∀ t : ℚ, (sortOrders orders).filter (fun o => decide (o.deliveryTimestamp = t)) =
         orders.filter (fun o => decide (o.deliveryTimestamp = t))) ∧
    (∀ (as : List DriverAssignment) (route : Route) (maxH st : ℚ) (i : ℕ),
       findBestDriver as route maxH st = some i →
       ∃ a, as[i]? = some a ∧ canDriverHandleOrder a route maxH st = true ∧
         (∀ (j : ℕ) (b : DriverAssignment), as[j]? = some b →
            canDriverHandleOrder b route maxH st = true →
            calculateDriverScore b route ≤ calculateDriverScore a route) ∧
         (∀ (j : ℕ) (b : DriverAssignment), j < i → as[j]? = some b →
            canDriverHandleOrder b route maxH st = true →
            calculateDriverScore b route < calculateDriverScore a route)) := by
  constructor
  · intro orders
    refine ⟨List.sorted_insertionSort ordLe orders, ?_⟩
    intro t
    apply filter_sortOrders
    intro a b ha hb
    have ha' := of_decide_eq_true ha
    have hb' := of_decide_eq_true hb
    unfold ordLe
    rw [ha', hb']
  · exact findBestDriver_some_spec

/-- Witness for C3: the selection characterization at a concrete two-driver
state (a fresh rested and a fresh fatigued driver), where the loop picks
driver 0. -/
theorem C3_greedy_assignment_witness :
    ∃ a, (initAssignments [driverA, driverB])[0]? = some a ∧
      canDriverHandleOrder a routeA 10 480 = true ∧
      (∀ (j : ℕ) (b : DriverAssignment),
         (initAssignments [driverA, driverB])[j]? = some b →
         canDriverHandleOrder b routeA 10 480 = true →
         calculateDriverScore b routeA ≤ calculateDriverScore a routeA) ∧
      (∀ (j : ℕ) (b : DriverAssignment), j < 0 →
         (initAssignments [driverA, driverB])[j]? = some b →
         canDriverHandleOrder b routeA 10 480 = true →
         calculateDriverScore b routeA < calculateDriverScore a routeA) :=
  C3_greedy_assignment.2 (initAssignments [driverA, driverB]) routeA 10 480 0 (by
    norm_num [findBestDriver, findBestAux, initAssignments, canDriverHandleOrder,
      calculateDriverScore, Route.adjustedTime, jsRound, trafficMultiplier,
      driverA, driverB, routeA])

/-- C2: every order result's economics follow the code's formulas:
penalty 50 exactly when late, a 10% bonus exactly for on-time orders worth
more than 1000, profit = value + bonus − penalty − fuelCost, and the fuel
cost is the fuel cost of the order's route. -/
theorem C2_order_economics (orders : List Order) (routes : List Route)
    (das : List DriverAssignment) (startTime : ℚ) (results : List OrderResult)
    (h : calculateOrderResults orders routes das startTime = Except.ok results) :
    ∀ res ∈ results,
      (res.penalty = if res.deliveryStatus = "On Time" then 0 else 50) ∧
      (res.bonus = if res.orderValue > 1000 ∧ res.deliveryStatus = "On Time"
                   then res.orderValue * (1/10) else 0) ∧
      (res.profit = res.orderValue + res.bonus - res.penalty - res.fuelCost) ∧
      (∃ r, routeLookup routes res.routeId = some r ∧ res.fuelCost = r.fuelCost) := by
  induction orders generalizing results with
  | nil =>
      unfold calculateOrderResults at h
      cases h
      intro res hres
      cases hres
  | cons o os ih =>
      unfold calculateOrderResults at h
      cases hroute : routeLookup routes o.assignedRoute with
      | none => rw [hroute] at h; cases h
      | some route =>
          rw [hroute] at h
          cases hrest : calculateOrderResults os routes das startTime with
          | error e => rw [hrest] at h; cases h
          | ok rs =>
              rw [hrest] at h
              have hres : results = mkOrderResult das startTime o route :: rs := by
                cases h; rfl
              subst hres
              intro res hmem
              rcases List.mem_cons.1 hmem with rfl | hmem
              · by_cases hot : calculateDeliveryTime startTime route
                    ((((das.find? fun d => d.assignedOrders.contains o.orderId).map
                        (fun d => d.isFatigued)).getD false)) ≤ o.deliveryTimestamp
                · refine ⟨?_, ?_, ?_, ⟨route, ?_, ?_⟩⟩ <;>
                    simp [mkOrderResult, hot, hroute]
                · refine ⟨?_, ?_, ?_, ⟨route, ?_, ?_⟩⟩ <;>
                    simp [mkOrderResult, hot, hroute]
              · exact ih rs hrest res hmem

/-- Witness for C2 at the Scenario A snapshot, specialized to its single
order result. -/
theorem C2_order_economics_witness :
    (orderResultA.penalty = if orderResultA.deliveryStatus = "On Time" then 0 else 50) ∧
    (orderResultA.bonus = if orderResultA.orderValue > 1000 ∧
        orderResultA.deliveryStatus = "On Time"
        then orderResultA.orderValue * (1/10) else 0) ∧
    (orderResultA.profit =
      orderResultA.orderValue + orderResultA.bonus - orderResultA.penalty -
        orderResultA.fuelCost) ∧
    (∃ r, routeLookup [routeA] orderResultA.routeId = some r ∧
      orderResultA.fuelCost = r.fuelCost) :=
  C2_order_economics [orderA] [routeA] [assignmentA] 480 [orderResultA]
    calculateOrderResults_scenarioA orderResultA (List.mem_singleton.2 rfl)

lemma calculateOrderResults_ok_iff (orders : List Order) (routes : List Route)
    (das : List DriverAssignment) (st : ℚ) :
    (∃ rs, calculateOrderResults orders routes das st = Except.ok rs) ↔
      ∀ o ∈ orders, ∃ r, routeLookup routes o.assignedRoute = some r := by
  induction orders with
  | nil =>
      constructor
      · intro _ o ho
        cases ho
      · intro _
        exact ⟨[], rfl⟩
  | cons o os ih =>
      constructor
      · rintro ⟨rs, hrs⟩ o' ho'
        unfold calculateOrderResults at hrs
        cases hroute : routeLookup routes o.assignedRoute with
        | none => rw [hroute] at hrs; cases hrs
        | some route =>
            rw [hroute] at hrs
            cases hrest : calculateOrderResults os routes das st with
            | error e => rw [hrest] at hrs; cases hrs
            | ok rs' =>
                rcases List.mem_cons.1 ho' with rfl | ho'
                · exact ⟨route, hroute⟩
                · exact (ih.1 ⟨rs', hrest⟩) o' ho'
      · intro hall
        rcases hall o (List.mem_cons_self _ _) with ⟨route, hroute⟩
        rcases ih.2 (fun o' ho' => hall o' (List.mem_cons_of_mem _ ho')) with ⟨rs, hrs⟩
        refine ⟨mkOrderResult das st o route :: rs, ?_⟩
        unfold calculateOrderResults
        rw [hroute, hrs]

/-- C4: once validation passes, `runSimulation` fails exactly when the
driver snapshot is empty, the undelivered-order snapshot is empty, or some
order's route id is unknown; being an `Except`, a failing run returns no
partial result.  An unknown route id is silently skipped by the assignment
step and yet still aborts the whole run. -/
theorem C4_notfound_all_or_nothing (todayMidnight : ℚ) (drivers : List Driver)
    (routes : List Route) (orders : List Order) (input : SimulationInput)
    (hval : validateSimulationInput input = Except.ok ()) :
    ((∃ e, runSimulation todayMidnight drivers routes orders input = Except.error e) ↔
      (drivers = [] ∨ orders = [] ∨
        ∃ o ∈ orders, routeLookup routes o.assignedRoute = none)) ∧
    (∀ (as : List DriverAssignment) (o : Order) (maxH st : ℚ),
      routeLookup routes o.assignedRoute = none →
      assignOrder routes maxH st as o = as) := by
  constructor
  · unfold runSimulation runSimulationCore
    rw [hval]
    by_cases hd : drivers = []
    · subst hd
      simp
    · rw [if_neg (by simpa [List.length_eq_zero] using hd)]
      by_cases ho : orders = []
      · subst ho
        simp
      · rw [if_neg (by simpa [List.length_eq_zero] using ho)]
        simp only []
        cases hc : calculateOrderResults orders routes
            (assignOrdersToDrivers drivers orders routes
              (todayMidnight + (parseStartTime input.startTime).1 * 60 +
                (parseStartTime input.startTime).2) (input.maxHoursPerDay : ℚ))
            (todayMidnight + (parseStartTime input.startTime).1 * 60 +
              (parseStartTime input.startTime).2) with
        | error e =>
            have hmiss : ∃ o ∈ orders, routeLookup routes o.assignedRoute = none := by
              have hnotall : ¬ ∀ o ∈ orders, ∃ r, routeLookup routes o.assignedRoute = some r := by
                intro hall
                rcases (calculateOrderResults_ok_iff orders routes _ _).2 hall with ⟨rs, hrs⟩
                rw [hc] at hrs
                cases hrs
              push_neg at hnotall
              rcases hnotall with ⟨o, ho', hno⟩
              refine ⟨o, ho', ?_⟩
              cases hx : routeLookup routes o.assignedRoute with
              | none => rfl
              | some r => exact absurd hx (hno r)
            constructor
            · intro _
              exact Or.inr (Or.inr hmiss)
            · intro _
              exact ⟨_, rfl⟩
        | ok rs =>
            constructor
            · rintro ⟨e, he⟩
              simp at he
            · rintro (h | h | ⟨o, ho', hno⟩)
              · exact absurd h hd
              · exact absurd h ho
              · rcases (calculateOrderResults_ok_iff orders routes _ _).1 ⟨rs, hc⟩ o ho'
                  with ⟨r, hr⟩
                rw [hr] at hno
                cases hno
  · intro as o maxH st hnone
    exact assignOrder_of_route_none routes maxH st as o hnone

/-- Witness for C4: with valid input, an empty driver snapshot makes the run
fail. -/
theorem C4_notfound_all_or_nothing_witness :
    ((∃ e, runSimulation 0 [] [routeA] [orderA] inputA = Except.error e) ↔
      (([] : List Driver) = [] ∨ ([orderA] : List Order) = [] ∨
        ∃ o ∈ [orderA], routeLookup [routeA] o.assignedRoute = none)) ∧
    (∀ (as : List DriverAssignment) (o : Order) (maxH st : ℚ),
      routeLookup [routeA] o.assignedRoute = none →
      assignOrder [routeA] maxH st as o = as) :=
  C4_notfound_all_or_nothing 0 [] [routeA] [orderA] inputA rfl

/-- C6 (code-bug evidence): `runSimulation` builds the start time from the
current date (`new Date()`), so the very same input and snapshot yields an
on-time delivery when run on the deadline's day (`todayMidnight = 0`) and a
late one when run one day later (`todayMidnight = 1440`): the result is not
a function of input and snapshot alone. -/
theorem C6_run_date_changes_result :
    (runSimulation 0 [driverA] [routeA] [orderA] inputA).map
        (fun r => r.orderResults.map (fun x => x.deliveryStatus)) =
      Except.ok ["On Time"] ∧
    (runSimulation 1440 [driverA] [routeA] [orderA] inputA).map
        (fun r => r.orderResults.map (fun x => x.deliveryStatus)) =
      Except.ok ["Late"] := by
  constructor <;>
    norm_num [runSimulation, runSimulationCore, validateSimulationInput,
      parseStartTime_0800, show timeRegexTest "08:00" = true from by decide,
      assignOrdersToDrivers, sortOrders, List.insertionSort, List.orderedInsert,
      initAssignments, assignOrder, routeLookup, findBestDriver, findBestAux,
      canDriverHandleOrder, calculateDriverScore, Route.adjustedTime, Route.fuelCost,
      jsRound, trafficMultiplier, calculateOrderResults, mkOrderResult,
      calculateDeliveryTime, jsTrunc, calculateKPIs, round2, Except.map,
      driverA, routeA, orderA, inputA]

/-- C7 counterexample: on a route with `adjustedTime = 54`, the fatigued
delivery time is 70 minutes after start — `setMinutes` truncates — while the
claim demands exactly `54 * 1.3 = 70.2` minutes. -/
theorem C7_truncation_counterexample :
    Route.adjustedTime route54 = 54 ∧
    calculateDeliveryTime 0 route54 true = 70 ∧
    (0 : ℚ) + Route.adjustedTime route54 * (13/10) = 351/5 ∧
    (70 : ℚ) ≠ 351/5 := by
  refine ⟨?_, ?_, ?_, by norm_num⟩ <;>
    norm_num [calculateDeliveryTime, jsTrunc, Route.adjustedTime, jsRound,
      trafficMultiplier, route54]

/-- C7 amended: the non-fatigued delivery time is exactly
`startTime + adjustedTime`; the fatigued one is
`startTime + trunc(adjustedTime * 1.3)` — the fractional minute is dropped
by `setMinutes` — and it equals `startTime + adjustedTime * 1.3` exactly
when `adjustedTime * 1.3` is an integer number of minutes. -/
theorem C7_delivery_time_amended (startTime : ℚ) (r : Route) :
    calculateDeliveryTime startTime r false = startTime + r.adjustedTime ∧
    calculateDeliveryTime startTime r true =
      startTime + (jsTrunc (r.adjustedTime * (13/10)) : ℚ) ∧
    ((∃ k : ℤ, r.adjustedTime * (13/10) = (k : ℚ)) →
      calculateDeliveryTime startTime r true = startTime + r.adjustedTime * (13/10)) := by
  refine ⟨?_, ?_, ?_⟩
  · show startTime + (jsTrunc (if false = true then r.adjustedTime * (13/10)
      else r.adjustedTime) : ℚ) = startTime + r.adjustedTime
    rw [if_neg (by simp)]
    unfold Route.adjustedTime
    rw [jsTrunc_intCast]
  · show startTime + (jsTrunc (if true = true then r.adjustedTime * (13/10)
      else r.adjustedTime) : ℚ) = _
    rw [if_pos rfl]
  · rintro ⟨k, hk⟩
    show startTime + (jsTrunc (if true = true then r.adjustedTime * (13/10)
      else r.adjustedTime) : ℚ) = _
    rw [if_pos rfl, hk, jsTrunc_intCast]

/-- Witness for C7's amended statement on a route where `30 * 1.3 = 39` is
exact. -/
theorem C7_delivery_time_amended_witness :
    calculateDeliveryTime 480 route30 false = 480 + route30.adjustedTime ∧
    calculateDeliveryTime 480 route30 true =
      480 + (jsTrunc (route30.adjustedTime * (13/10)) : ℚ) ∧
    calculateDeliveryTime 480 route30 true = 480 + route30.adjustedTime * (13/10) :=
  ⟨(C7_delivery_time_amended 480 route30).1,
   (C7_delivery_time_amended 480 route30).2.1,
   (C7_delivery_time_amended 480 route30).2.2
     ⟨39, by norm_num [Route.adjustedTime, jsRound, trafficMultiplier, route30]⟩⟩

/-- C8 counterexample: an order assigned to the driver with id `"driver1"`
and name `"Alice"` yields `assignedDriver = "Alice"` — the driver's *name*,
not its id — and the unassigned literal in the code is `"Unassigned"`, not
`"unassigned"`. -/
theorem C8_driver_name_counterexample :
    calculateOrderResults [orderA] [routeA] [assignmentA] 480 =
      Except.ok [orderResultA] ∧
    orderResultA.assignedDriver = "Alice" ∧
    assignmentA.driverId = "driver1" ∧
    orderResultA.assignedDriver ≠ assignmentA.driverId ∧
    orderResultA.assignedDriver ≠ "unassigned" :=
  ⟨calculateOrderResults_scenarioA, rfl, rfl, by decide, by decide⟩

/-- C8 amended: the assigned-driver field holds the assigned driver's
*name* (first assignment whose list contains the order id) when the order
was assigned and the name is non-empty, and the literal `"Unassigned"`
otherwise. -/
theorem C8_assigned_driver_amended (orders : List Order) (routes : List Route)
    (das : List DriverAssignment) (startTime : ℚ) (results : List OrderResult)
    (h : calculateOrderResults orders routes das startTime = Except.ok results)
    (hnames : ∀ d ∈ das, d.driverName ≠ "") :
    ∀ res ∈ results,
      res.assignedDriver =
        ((das.find? fun d => d.assignedOrders.contains res.orderId).map
          (fun d => d.driverName)).getD "Unassigned" := by
  induction orders generalizing results with
  | nil =>
      unfold calculateOrderResults at h
      cases h
      intro res hres
      cases hres
  | cons o os ih =>
      unfold calculateOrderResults at h
      cases hroute : routeLookup routes o.assignedRoute with
      | none => rw [hroute] at h; cases h
      | some route =>
          rw [hroute] at h
          cases hrest : calculateOrderResults os routes das startTime with
          | error e => rw [hrest] at h; cases h
          | ok rs =>
              rw [hrest] at h
              have hres : results = mkOrderResult das startTime o route :: rs := by
                cases h; rfl
              subst hres
              intro res hmem
              rcases List.mem_cons.1 hmem with rfl | hmem
              · show (mkOrderResult das startTime o route).assignedDriver = _
                simp only [mkOrderResult]
                cases hfind : das.find? (fun d => d.assignedOrders.contains o.orderId) with
                | none => rfl
                | some d =>
                    have hd := hnames d (List.mem_of_find?_eq_some hfind)
                    simp [hd]
              · exact ih rs hrest res hmem

/-- Witness for C8's amended statement at the Scenario A snapshot,
specialized to its single order result. -/
theorem C8_assigned_driver_amended_witness :
    orderResultA.assignedDriver =
      (([assignmentA].find? fun d => d.assignedOrders.contains orderResultA.orderId).map
        (fun d => d.driverName)).getD "Unassigned" :=
  C8_assigned_driver_amended [orderA] [routeA] [assignmentA] 480 [orderResultA]
    calculateOrderResults_scenarioA (by decide) orderResultA (List.mem_singleton.2 rfl)

/-- C9 counterexample: for `availableDrivers = 0` the caller of
`runSimulation` receives `"Simulation failed: Available drivers must be
greater than 0"` — the validation message wrapped by the catch block — not
the verbatim validation message. -/
theorem C9_wrapped_message_counterexample :
    runSimulation 0 [] [] [] inputZero =
      Except.error "Simulation failed: Available drivers must be greater than 0" ∧
    "Simulation failed: Available drivers must be greater than 0" ≠
      "Available drivers must be greater than 0" :=
  ⟨rfl, by decide⟩

/-- C9 amended: validation fails exactly when `availableDrivers ≤ 0`,
`maxHoursPerDay` lies outside `[1, 24]`, or the start time fails the
`HH:MM` regular expression; the validation message reaches the caller of
`runSimulation` wrapped as `"Simulation failed: <message>"`, so for
`availableDrivers ≤ 0` the caller receives exactly
`"Simulation failed: Available drivers must be greater than 0"`. -/
theorem C9_validation_conditions_and_wrapped_message :
    (∀ input : SimulationInput,
      (∃ m, validateSimulationInput input = Except.error m) ↔
        (input.availableDrivers ≤ 0 ∨ input.maxHoursPerDay < 1 ∨
          input.maxHoursPerDay > 24 ∨ timeRegexTest input.startTime = false)) ∧
    (∀ (todayMidnight : ℚ) (drivers : List Driver) (routes : List Route)
       (orders : List Order) (input : SimulationInput) (m : String),
      validateSimulationInput input = Except.error m →
      runSimulation todayMidnight drivers routes orders input =
        Except.error ("Simulation failed: " ++ m)) ∧
    (∀ (todayMidnight : ℚ) (drivers : List Driver) (routes : List Route)
       (orders : List Order) (input : SimulationInput),
      input.availableDrivers ≤ 0 →
      runSimulation todayMidnight drivers routes orders input =
        Except.error "Simulation failed: Available drivers must be greater than 0") := by
  refine ⟨?_, ?_, ?_⟩
  · intro input
    unfold validateSimulationInput
    split_ifs with h1 h2 h3
    · constructor
      · intro _
        exact Or.inl h1
      · intro _
        exact ⟨_, rfl⟩
    · constructor
      · intro _
        rcases h2 with h | h
        · exact Or.inr (Or.inl (by omega))
        · exact Or.inr (Or.inr (Or.inl h))
      · intro _
        exact ⟨_, rfl⟩
    · constructor
      · rintro ⟨m, hm⟩
        cases hm
      · rintro (h | h | h | h)
        · exact absurd h h1
        · exact absurd (Or.inl (by omega)) h2
        · exact absurd (Or.inr h) h2
        · rw [h3] at h
          cases h
    · constructor
      · intro _
        refine Or.inr (Or.inr (Or.inr ?_))
        cases hb : timeRegexTest input.startTime with
        | false => rfl
        | true => exact absurd hb h3
      · intro _
        exact ⟨_, rfl⟩
  · intro today drivers routes orders input m hm
    unfold runSimulation runSimulationCore
    rw [hm]
  · intro today drivers routes orders input had
    have hm : validateSimulationInput input =
        Except.error "Available drivers must be greater than 0" := by
      unfold validateSimulationInput
      rw [if_pos had]
    unfold runSimulation runSimulationCore
    rw [hm]
    rfl

/-- Witness for C9's amended statement at `availableDrivers = 0`. -/
theorem C9_validation_amended_witness :
    (∃ m, validateSimulationInput inputZero = Except.error m) ∧
    runSimulation 0 [] [] [] inputZero =
      Except.error ("Simulation failed: " ++ "Available drivers must be greater than 0") ∧
    runSimulation 0 [] [] [] inputZero =
      Except.error "Simulation failed: Available drivers must be greater than 0" :=
  ⟨(C9_validation_conditions_and_wrapped_message.1 inputZero).2 (Or.inl (by decide)),
   C9_validation_conditions_and_wrapped_message.2.1 0 [] [] [] inputZero
     "Available drivers must be greater than 0" rfl,
   C9_validation_conditions_and_wrapped_message.2.2 0 [] [] [] inputZero (by decide)⟩

/-- C10: the validator accepts the single-digit-hour start time `"8:30"`
(the regular expression's leading hour digit is optional), and — when the
numeric fields are in range — it rejects an input exactly when the start
time fails the embedded regular expression. -/
theorem C10_single_digit_hour_accepted :
    validateSimulationInput input830 = Except.ok () ∧
    timeRegexTest "8:30" = true ∧
    (∀ input : SimulationInput, 0 < input.availableDrivers →
      1 ≤ input.maxHoursPerDay → input.maxHoursPerDay ≤ 24 →
      ((∃ m, validateSimulationInput input = Except.error m) ↔
        timeRegexTest input.startTime = false)) := by
  refine ⟨rfl, by decide, ?_⟩
  intro input h1 h2 h3
  unfold validateSimulationInput
  rw [if_neg (by omega), if_neg (by rintro (h | h) <;> omega)]
  by_cases ht : timeRegexTest input.startTime = true
  · rw [if_neg (not_not_intro ht)]
    constructor
    · rintro ⟨m, hm⟩
      cases hm
    · intro hf
      rw [ht] at hf
      cases hf
  · rw [if_pos ht]
    constructor
    · intro _
      cases hb : timeRegexTest input.startTime with
      | false => rfl
      | true => exact absurd hb ht
    · intro _
      exact ⟨_, rfl⟩

/-- Witness for C10 at the rejected start time `"25:00"`. -/
theorem C10_single_digit_hour_accepted_witness :
    (∃ m, validateSimulationInput input2500 = Except.error m) ↔
      timeRegexTest input2500.startTime = false :=
  C10_single_digit_hour_accepted.2.2 input2500 (by decide) (by decide) (by decide)

end PurpleMerit
